import Mathlib

/-
Verification of the remington PM-agent core against its design document.

Shallow embedding conventions:
* Python strings are `List Char`; `str.lower` is a character map, `str.strip`
  drops ASCII whitespace at both ends (all inputs in the claims are ASCII
  plus the two emoji glyphs, for which these agree with Python).
* SQLite tables are Lean lists of row structures; `SELECT ... WHERE` is
  `List.find?` / `List.filter`, `UPDATE` is `List.map`, `INSERT` appends.
* Wall-clock timestamps are integers counting seconds; Python's
  `(now - last).total_seconds() / 3600 >= 24` is the exact integer
  comparison `now - last >= 86400`.
* Network and subprocess side effects are inputs (their outcome is a
  parameter) or outputs (an explicit effect list) of the modelled function.
-/

/-- Characters removed by Python `str.strip()` and matched by the regex
class `\s` (ASCII whitespace; the texts in the claims are ASCII). -/
def isPySpace (c : Char) : Bool :=
  c = ' ' || c = '\t' || c = '\n' || c = '\r' || c = Char.ofNat 11 || c = Char.ofNat 12

/-- Python `str.lower()` (character-wise; ASCII case mapping). -/
def pyLower (s : List Char) : List Char := s.map Char.toLower

/-- Python `str.strip()` with no argument: drop whitespace at both ends. -/
def pyStrip (s : List Char) : List Char :=
  ((s.dropWhile isPySpace).reverse.dropWhile isPySpace).reverse

/-- Membership of the regex class `\w` used by the `\b` word boundary
(`[A-Za-z0-9_]`; the claims' inputs are ASCII). -/
def isWordChar (c : Char) : Bool := c.isAlphanum || c = '_'

/-- The literal word `w` occurs in `s` at position `i` with a regex word
boundary `\b` on each side. -/
def hasWordAt (s w : List Char) (i : Nat) : Bool :=
  ((s.drop i).take w.length == w)
  && (i == 0 || !isWordChar (s.getD (i - 1) ' '))
  && (i + w.length == s.length || !isWordChar (s.getD (i + w.length) ' '))

/-- Whole-word containment: `re.search` of `\b w \b` succeeds on `s`. -/
def containsWord (s w : List Char) : Bool :=
  (List.range (s.length + 1)).any (hasWordAt s w)

/-- Plain substring containment: `re.search` of a literal with no
boundary assertions (used for the emoji glyph patterns). -/
def containsSub (s w : List Char) : Bool :=
  (List.range (s.length + 1)).any (fun i => (s.drop i).take w.length == w)

/-- Result classification of `ClaudeCodeOrchestrator.parse_approval_response`
(`response_type` values `"approved"`, `"changes"`, `"cancel"`; `None` is
modelled by `Option`). -/
inductive ResponseType
  | approved
  | changes
  | cancel
  deriving DecidableEq, Repr

/-- Return value of `parse_approval_response`. The Python float
`confidence` (0.9 on a match, 0.0 otherwise) is carried in tenths. -/
structure ApprovalResponse where
  response_type : Option ResponseType
  feedback : Option (List Char)
  confidence_tenths : Nat
  deriving DecidableEq, Repr

/-- The approval pattern list of `parse_approval_response`
(claude_code_orchestrator.py lines 884-890): whole-word
`approved?`/`approve`, the word-bounded phrases `looks good` and
`go ahead`, and the checkmark glyph anywhere. The regex alternation
`approved?` is the whole-word occurrence of `approved` or of `approve`. -/
def approvalMatch (s : List Char) : Bool :=
  containsWord s ("approved".toList) || containsWord s ("approve".toList)
  || containsWord s ("looks good".toList) || containsWord s ("go ahead".toList)
  || containsSub s ("✅".toList)

/-- Keyword `kw` matches at the head of `t` and leaves a nonempty
remainder: this is exactly when `re.search` of `kw \s*(.+)` (with DOTALL)
matches at this position, since `.+` needs one character which greedy
`\s*` gives back when everything after `kw` is whitespace. -/
def kwMatchAt (kw t : List Char) : Bool :=
  List.isPrefixOf kw t && decide (kw.length < t.length)

/-- Leftmost `re.search` over an alternation of literal keyword prefixes:
scan positions left to right, try the alternatives in order at each
position, and return the stripped capture `(.+)` (everything after the
keyword, stripped: greedy `\s*` then greedy DOTALL `.+` capture, to which
the caller applies `.strip()`, together strip the remainder). -/
def searchKw (alts : List (List Char)) : List Char → Option (List Char)
  | [] => none
  | c :: rest =>
    match alts.find? (fun kw => kwMatchAt kw (c :: rest)) with
    | some kw => some (pyStrip ((c :: rest).drop kw.length))
    | none => searchKw alts rest

/-- The literal prefix of the fifth change pattern `please change\s+(.+)`. -/
def pleaseChangeKw : List Char := "please change".toList

/-- The pattern `please change\s+(.+)` matches at the head of `t`: the
literal prefix, then at least one whitespace character, then at least one
further character. -/
def pleaseChangeAt (t : List Char) : Bool :=
  List.isPrefixOf pleaseChangeKw t
  && (match t.drop pleaseChangeKw.length with
      | c :: _ :: _ => isPySpace c
      | _ => false)

/-- Leftmost `re.search` for `please change\s+(.+)`; the stripped capture
equals the stripped remainder after the literal prefix. -/
def searchPleaseChange : List Char → Option (List Char)
  | [] => none
  | c :: rest =>
    if pleaseChangeAt (c :: rest) then
      some (pyStrip ((c :: rest).drop pleaseChangeKw.length))
    else searchPleaseChange rest

/-- The change-request pattern cascade of `parse_approval_response`
(lines 901-917): the patterns `changes?:\s*(.+)`, `revise?:\s*(.+)`,
`update:\s*(.+)`, `modify:\s*(.+)`, `please change\s+(.+)` are tried in
order and the first that matches anywhere yields the stripped capture.
Each optional-letter alternation is expanded into its two literals. -/
def changeFeedback (s : List Char) : Option (List Char) :=
  (searchKw ["changes:".toList, "change:".toList] s).orElse fun _ =>
  (searchKw ["revise:".toList, "revis:".toList] s).orElse fun _ =>
  (searchKw ["update:".toList] s).orElse fun _ =>
  (searchKw ["modify:".toList] s).orElse fun _ =>
  searchPleaseChange s

/-- The ASCII apostrophe character (code 39). -/
def apos : Char := Char.ofNat 39

/-- The cancel pattern `don'?t create` with the apostrophe present. -/
def dontCreateKw : List Char := "don".toList ++ [apos] ++ "t create".toList

/-- The cancel pattern `don'?t create` with the apostrophe absent. -/
def dontCreateNoApos : List Char := "dont create".toList

/-- The cancel pattern list of `parse_approval_response` (lines 920-926):
whole-word `cancel`, `discard`, `never mind`, `don'?t create`, and the
cross glyph anywhere. -/
def cancelMatch (s : List Char) : Bool :=
  containsWord s ("cancel".toList) || containsWord s ("discard".toList)
  || containsWord s ("never mind".toList)
  || containsWord s dontCreateKw || containsWord s dontCreateNoApos
  || containsSub s ("❌".toList)

/-- `ClaudeCodeOrchestrator.parse_approval_response` (lines 863-941):
lowercase and strip the comment, then test the approval patterns, then
the change patterns (capturing feedback), then the cancel patterns. -/
def parse_approval_response (comment_text : List Char) : ApprovalResponse :=
  let comment_lower := pyStrip (pyLower comment_text)
  if approvalMatch comment_lower then
    { response_type := some ResponseType.approved, feedback := none, confidence_tenths := 9 }
  else
    match changeFeedback comment_lower with
    | some fb =>
      { response_type := some ResponseType.changes, feedback := some fb, confidence_tenths := 9 }
    | none =>
      if cancelMatch comment_lower then
        { response_type := some ResponseType.cancel, feedback := none, confidence_tenths := 9 }
      else
        { response_type := none, feedback := none, confidence_tenths := 0 }

/-- SQL `MAX` over an integer column: `NULL` (here `none`) on an empty
row set, otherwise the maximum. -/
def sqlMaxInt : List Int → Option Int
  | [] => none
  | x :: xs => some (xs.foldl max x)

/-- Python `value or 0` applied to a nullable integer (`None or 0` is `0`,
`0 or 0` is `0`, any other integer is itself). -/
def pyOrZero : Option Int → Int
  | none => 0
  | some x => x

/-- Row of the `sla_alerts` table (sla_alert_tracker.py lines 25-36).
Timestamps are integer seconds; `created_at` carries no behavior and is
omitted. -/
structure SLARow where
  violation_id : String
  item_id : String
  violation_type : String
  last_alerted_at : Int
  alert_count : Int
  current_escalation_level : Int
  slack_thread_ts : Option String
  deriving DecidableEq, Repr

/-- Input violation dict: `item_id`, `type`, and the optional
`escalation_level` read with `violation.get('escalation_level', 1)`. -/
structure Violation where
  item_id : String
  vtype : String
  escalation_level : Option Int
  deriving DecidableEq, Repr

/-- The composite key `f"{violation['item_id']}_{violation['type']}"`. -/
def violationId (v : Violation) : String := v.item_id ++ "_" ++ v.vtype

/-- `violation.get('escalation_level', 1)`. -/
def violationEscalation (v : Violation) : Int := v.escalation_level.getD 1

/-- `SELECT ... FROM sla_alerts WHERE violation_id = ?` with `fetchone`. -/
def lookupSLA (db : List SLARow) (vid : String) : Option SLARow :=
  db.find? (fun r => r.violation_id == vid)

/-- `should_alert_violation` (sla_alert_tracker.py lines 47-105): alert on
a missing record; otherwise alert when the incoming escalation exceeds
the recorded one, or at least 24 hours (86400 seconds — the code compares
`total_seconds()/3600 >= 24`) have passed since `last_alerted_at`;
otherwise suppress. -/
def should_alert_violation (db : List SLARow) (now : Int) (v : Violation) : Bool :=
  match lookupSLA db (violationId v) with
  | none => true
  | some r =>
    if violationEscalation v > r.current_escalation_level then true
    else if now - r.last_alerted_at ≥ 86400 then true
    else false

/-- `record_alert` (sla_alert_tracker.py lines 108-162): if a record for
the violation id exists, `UPDATE` it — `last_alerted_at = now`,
`alert_count` = the selected row's count + 1, `current_escalation_level` =
the incoming level, `slack_thread_ts = COALESCE(new, old)`; otherwise
`INSERT` a fresh row with count 1. -/
def record_alert (db : List SLARow) (now : Int) (v : Violation)
    (slack_thread_ts : Option String) : List SLARow :=
  let vid := violationId v
  match lookupSLA db vid with
  | some r =>
    db.map (fun row =>
      if row.violation_id == vid then
        { row with
          last_alerted_at := now
          alert_count := r.alert_count + 1
          current_escalation_level := violationEscalation v
          slack_thread_ts := slack_thread_ts.orElse fun _ => row.slack_thread_ts }
      else row)
  | none =>
    db ++ [{ violation_id := vid, item_id := v.item_id, violation_type := v.vtype,
             last_alerted_at := now, alert_count := 1,
             current_escalation_level := violationEscalation v,
             slack_thread_ts := slack_thread_ts }]

/-- Row of the `pending_pm_requests` table (pm_requests_db.py lines
47-65). The surrogate autoincrement `id` is omitted (no behavior depends
on it); timestamps are integer seconds. -/
structure PMRequestRow where
  request_id : String
  source : String
  source_id : String
  request_type : String
  user_id : String
  user_name : String
  original_context : String
  draft_content : String
  status : String
  jira_ticket_key : Option String
  created_at : Int
  updated_at : Int
  approved_at : Option Int
  created_ticket_at : Option Int
  deriving DecidableEq, Repr

/-- Row of the `pm_request_revisions` table (lines 89-99), surrogate `id`
omitted. -/
structure RevisionRow where
  request_id : String
  revision_number : Int
  draft_content : String
  feedback : Option String
  created_at : Int
  deriving DecidableEq, Repr

/-- The two tables managed by `PMRequestsDB`. -/
structure PMRequestsDB where
  requests : List PMRequestRow
  revisions : List RevisionRow
  deriving DecidableEq, Repr

/-- `PMRequestsDB.create_request` (lines 108-151): insert a `pending`
request row and a revision row numbered 1 with the initial draft and no
feedback. The UUID `request_id` and the clock are parameters. -/
def create_request (db : PMRequestsDB) (request_id : String) (now : Int)
    (source source_id request_type user_id user_name original_context draft_content : String) :
    PMRequestsDB :=
  { requests := db.requests ++
      [{ request_id := request_id, source := source, source_id := source_id,
         request_type := request_type, user_id := user_id, user_name := user_name,
         original_context := original_context, draft_content := draft_content,
         status := "pending", jira_ticket_key := none,
         created_at := now, updated_at := now, approved_at := none, created_ticket_at := none }],
    revisions := db.revisions ++
      [{ request_id := request_id, revision_number := 1, draft_content := draft_content,
         feedback := none, created_at := now }] }

/-- `PMRequestsDB.get_request` (lines 153-162): `fetchone` on
`WHERE request_id = ?`. -/
def get_request (db : PMRequestsDB) (request_id : String) : Option PMRequestRow :=
  db.requests.find? (fun r => r.request_id == request_id)

/-- `PMRequestsDB.update_request_status` (lines 204-246): three `UPDATE`
shapes selected by the target status, each filtered only by
`request_id` — no check of the current status; returns
`cursor.rowcount > 0`, i.e. whether any row had that id. -/
def update_request_status (db : PMRequestsDB) (request_id : String) (status : String)
    (jira_ticket_key : Option String) (now : Int) : PMRequestsDB × Bool :=
  let requests' :=
    if status == "approved" then
      db.requests.map (fun r =>
        if r.request_id == request_id then
          { r with status := status, updated_at := now, approved_at := some now }
        else r)
    else if status == "created" && jira_ticket_key.isSome then
      db.requests.map (fun r =>
        if r.request_id == request_id then
          { r with
            status := status
            updated_at := now
            created_ticket_at := some now
            jira_ticket_key := jira_ticket_key }
        else r)
    else
      db.requests.map (fun r =>
        if r.request_id == request_id then { r with status := status, updated_at := now }
        else r)
  ({ db with requests := requests' },
   db.requests.any (fun r => r.request_id == request_id))

/-- The `revision_number` column of the revisions of one request, in
table (insertion) order. -/
def requestRevisionNumbers (db : PMRequestsDB) (request_id : String) : List Int :=
  (db.revisions.filter (fun r => r.request_id == request_id)).map (fun r => r.revision_number)

/-- `PMRequestsDB.add_revision` (lines 248-293): read
`SELECT MAX(revision_number) ... WHERE request_id = ?`, apply Python's
`or 0`, insert a revision numbered max+1, and unconditionally reset the
request row to the new draft with status `'pending'` — again with no
check of the current status. Returns the new revision number. -/
def add_revision (db : PMRequestsDB) (request_id : String) (draft_content : String)
    (feedback : Option String) (now : Int) : PMRequestsDB × Int :=
  let max_rev := pyOrZero (sqlMaxInt (requestRevisionNumbers db request_id))
  let new_rev := max_rev + 1
  ({ requests := db.requests.map (fun r =>
       if r.request_id == request_id then
         { r with draft_content := draft_content, status := "pending", updated_at := now }
       else r),
     revisions := db.revisions ++
       [{ request_id := request_id, revision_number := new_rev, draft_content := draft_content,
          feedback := feedback, created_at := now }] },
   new_rev)

/-- Row of the Jira monitor's `processed_mentions` table
(jira_monitor.py lines 66-73); primary key `(issue_key, comment_id)`,
`processed_at` carries no behavior and is omitted. -/
structure JiraMonitor.ProcessedRow where
  issue_key : String
  comment_id : String
  deriving DecidableEq, Repr

/-- `JiraMonitor.is_processed` (lines 109-116). -/
def JiraMonitor.is_processed (db : List JiraMonitor.ProcessedRow)
    (issue_key comment_id : String) : Bool :=
  db.any (fun r => r.issue_key == issue_key && r.comment_id == comment_id)

/-- `JiraMonitor.mark_processed` (lines 118-124): `INSERT OR IGNORE`
under the composite primary key — a no-op when the key is present,
otherwise an insert; never an error. -/
def JiraMonitor.mark_processed (db : List JiraMonitor.ProcessedRow)
    (issue_key comment_id : String) : List JiraMonitor.ProcessedRow :=
  if JiraMonitor.is_processed db issue_key comment_id then db
  else db ++ [{ issue_key := issue_key, comment_id := comment_id }]

/-- Row of the Slack monitor's `processed_messages` table
(slack_monitor.py lines 55-64); primary key `ts`. Slack timestamps
(decimal strings such as "1727690000.123456") are modelled as integers,
preserving equality and order; the unused `user_id`/`text`/`processed_at`
columns are omitted. -/
structure SlackMonitor.ProcessedRow where
  ts : Int
  channel : String
  response : String
  deriving DecidableEq, Repr

/-- `SlackMonitor.is_processed` (lines 394-401). -/
def SlackMonitor.is_processed (db : List SlackMonitor.ProcessedRow) (ts : Int) : Bool :=
  db.any (fun r => r.ts == ts)

/-- `SlackMonitor.mark_processed` (lines 403-413): `INSERT OR REPLACE`
under primary key `ts` — any existing row with this key is replaced by
the new one (`response` truncated to 1000 characters); never an error. -/
def SlackMonitor.mark_processed (db : List SlackMonitor.ProcessedRow)
    (channel : String) (ts : Int) (response : String) : List SlackMonitor.ProcessedRow :=
  db.filter (fun r => !(r.ts == ts)) ++
    [{ ts := ts, channel := channel, response := response.take 1000 }]

/-- One Jira comment as seen by `_filter_new_mentions`: its id and the
text already extracted from ADF by `_extract_comment_text`. -/
structure JiraComment where
  id : String
  text : List Char
  deriving DecidableEq, Repr

/-- One Jira issue from the search response: key and comment list (the
other fields feed only the event payload). -/
structure JiraIssue where
  key : String
  comments : List JiraComment
  deriving DecidableEq, Repr

/-- Event emitted by the Jira monitor (jira_monitor.py lines 212-226);
only the fields the dispatch logic reads are modelled. -/
structure JiraEvent where
  issue_key : String
  comment_id : String
  comment_text : List Char
  deriving DecidableEq, Repr

/-- `JiraMonitor._is_service_account_mentioned` (lines 257-272): the
lowered text contains `@remington`, or `remington`, or — when the
configured service-account email is set and nonempty — the lowered
email. -/
def is_service_account_mentioned (email : Option (List Char)) (text : List Char) : Bool :=
  let text_lower := pyLower text
  containsSub text_lower ("@remington".toList)
  || containsSub text_lower ("remington".toList)
  || (match email with
      | some e => !e.isEmpty && containsSub text_lower (pyLower e)
      | none => false)

/-- Loop body of `_filter_new_mentions` for one comment (lines 191-229):
when the comment mentions the service account and is not yet processed,
append the event AND mark the comment processed immediately — at fetch
time, inside the filter, before any dispatch or side effect. The
`get_issue_context` network read only enriches the payload and cannot
fail the loop (it catches its exceptions); it is omitted. -/
def filterMentionStep (email : Option (List Char)) (issue_key : String)
    (acc : List JiraEvent × List JiraMonitor.ProcessedRow) (c : JiraComment) :
    List JiraEvent × List JiraMonitor.ProcessedRow :=
  if is_service_account_mentioned email c.text
      && !JiraMonitor.is_processed acc.2 issue_key c.id then
    (acc.1 ++ [{ issue_key := issue_key, comment_id := c.id, comment_text := c.text }],
     JiraMonitor.mark_processed acc.2 issue_key c.id)
  else acc

/-- `JiraMonitor._filter_new_mentions` (lines 182-234): fold the step
over every comment of every issue, threading the processed table. -/
def filter_new_mentions (email : Option (List Char))
    (processed : List JiraMonitor.ProcessedRow) (issues : List JiraIssue) :
    List JiraEvent × List JiraMonitor.ProcessedRow :=
  issues.foldl (fun acc issue => issue.comments.foldl (filterMentionStep email issue.key) acc)
    ([], processed)

/-- Persisted state of the Jira monitor: the `processed_mentions` table
and the `last_check` cursor row (jira_monitor.py lines 60-107). -/
structure JiraMonitorState where
  processed : List JiraMonitor.ProcessedRow
  last_check : Option Int
  deriving DecidableEq, Repr

/-- Outcome of the Jira search request in `poll_for_mentions`: a payload,
a 429, another non-200 status, or a raised exception. -/
inductive JiraFetch
  | ok (issues : List JiraIssue)
  | rateLimited
  | httpError
  | exn
  deriving DecidableEq, Repr

/-- `JiraMonitor.poll_for_mentions` (lines 126-180): on a 200 response,
run `_filter_new_mentions` (which already writes the processed table)
and then `set_last_check_time(datetime.now())`; on a 429, another error
status, or an exception, return no events and leave the state untouched. -/
def JiraMonitor.poll_for_mentions (email : Option (List Char)) (st : JiraMonitorState)
    (now : Int) (fetch : JiraFetch) : List JiraEvent × JiraMonitorState :=
  match fetch with
  | JiraFetch.ok issues =>
    let r := filter_new_mentions email st.processed issues
    (r.1, { processed := r.2, last_check := some now })
  | _ => ([], st)

/-- One message from the Slack `conversations.history` response;
timestamps modelled as integers as in `SlackMonitor.ProcessedRow`. -/
structure SlackMessage where
  ts : Int
  user : Option String
  bot_id : Option String
  text : List Char
  thread_ts : Option Int
  deriving DecidableEq, Repr

/-- Event emitted by the Slack monitor (slack_monitor.py lines 351-361);
the `thread_context` snapshot only enriches the payload and is omitted. -/
structure SlackEvent where
  ts : Int
  channel : String
  user : Option String
  text : List Char
  thread_ts : Option Int
  deriving DecidableEq, Repr

/-- Persisted state of the Slack monitor read and written through the
`processed_messages` table (the `tracked_threads` table belongs to the
thread sub-polling, outside the main-channel poll modelled here). -/
structure SlackMonitorState where
  processed : List SlackMonitor.ProcessedRow
  deriving DecidableEq, Repr

/-- `SlackMonitor.get_last_processed_ts` (lines 99-107):
`SELECT MAX(ts) ... WHERE channel = ?`, 0 when there is no row. This is
the only cursor the Slack connector has; it is derived from the
processed-items table, not stored separately. -/
def SlackMonitor.get_last_processed_ts (st : SlackMonitorState) (channel : String) : Int :=
  pyOrZero (sqlMaxInt ((st.processed.filter (fun r => r.channel == channel)).map (fun r => r.ts)))

/-- The literal `f"<@{bot_user_id}>"` the mention check looks for. -/
def mentionTag (bot_user_id : String) : List Char :=
  "<@".toList ++ bot_user_id.toList ++ ">".toList

/-- `SlackMonitor.poll_for_mentions`, main-channel part (lines 268-361):
read the derived cursor, fetch history (the bounded-lookback `oldest`
window of lines 279-299 shapes only the platform query), then for each
message skip bot messages, messages at or before the cursor,
non-mentions, and already-processed messages, and emit the rest. The
acknowledgement post is a side effect with no state write, and nothing
in the poll writes `processed_messages`: the returned state is the input
state. On an API error or exception the poll returns no events. -/
def SlackMonitor.poll_for_mentions (st : SlackMonitorState) (channel bot_user_id : String)
    (fetch_ok : Bool) (messages : List SlackMessage) : List SlackEvent × SlackMonitorState :=
  if !fetch_ok then ([], st)
  else
    let last_ts := SlackMonitor.get_last_processed_ts st channel
    let events := messages.filterMap (fun m =>
      if m.bot_id.isSome || m.user == some bot_user_id then none
      else if m.ts ≤ last_ts then none
      else if containsSub m.text (mentionTag bot_user_id) then
        if SlackMonitor.is_processed st.processed m.ts then none
        else some { ts := m.ts, channel := channel, user := m.user, text := m.text,
                    thread_ts := m.thread_ts }
      else none)
    (events, st)

/-- Dispatcher step for the Slack generic fallback (pm_agent_service.py
lines 303-327): post the response; only when `send_response` returned
success, `mark_processed(event['ts'], response=response[:100])`; on
failure leave the item unmarked so the next poll retries it. The send
outcome is the `send_ok` parameter. -/
def slack_generic_dispatch (processed : List SlackMonitor.ProcessedRow)
    (channel : String) (ts : Int) (response : String) (send_ok : Bool) :
    List SlackMonitor.ProcessedRow :=
  if send_ok then SlackMonitor.mark_processed processed channel ts (response.take 100)
  else processed

/-- Effect marker for the reasoning-service subprocess invocation inside
`SlackMonitor.process_with_claude`. -/
inductive ReasoningEffect
  | subprocessCall
  deriving DecidableEq, Repr

/-- Names resolvable at the point `process_with_claude` evaluates its
prompt f-string (slack_monitor.py line 467): the parameters `self`,
`event`, `full_context`; the locals `user`, `text`, `context_display`
(and, on some branches, `thread_ctx`, `context_parts`, `i`, `reply`)
assigned above; the module-level imports and class name. Read off the
source file — `channel_name` is assigned nowhere in the function, the
module, or its imports. -/
def processWithClaudeScope : List String :=
  ["self", "event", "full_context", "user", "text", "context_display",
   "thread_ctx", "context_parts", "i", "reply",
   "os", "sqlite3", "subprocess", "time", "datetime", "Path",
   "List", "Dict", "Any", "Optional", "requests", "SlackMonitor"]

/-- Names the prompt f-string reads, in evaluation order (lines 467-583):
`user`, then `channel_name` (the condition of
`channel_name if channel_name else "workspace"` is evaluated first),
then `datetime`, then `context_display`. -/
def promptInterpolatedNames : List String :=
  ["user", "channel_name", "datetime", "context_display"]

/-- Result of running a Python function that may raise `NameError`. -/
inductive PyOutcome (α : Type)
  | ok (a : α)
  | nameError (missing : String)
  deriving DecidableEq, Repr

/-- `SlackMonitor.process_with_claude` (lines 441-656): Python
evaluates the f-string when the `prompt = f"""..."""` statement runs, so
the first interpolated name that is not in scope raises `NameError`
there; only if every name resolves does control reach the retry loop
that invokes the reasoning-service subprocess (whose outcome is the
`run_claude` parameter). The effect list records whether the subprocess
was invoked. -/
def SlackMonitor.process_with_claude (run_claude : Unit → String) (_event : SlackEvent) :
    PyOutcome String × List ReasoningEffect :=
  match promptInterpolatedNames.find? (fun n => !processWithClaudeScope.contains n) with
  | some n => (PyOutcome.nameError n, [])
  | none => (PyOutcome.ok (run_claude ()), [ReasoningEffect.subprocessCall])

/-- Helper: `find?` commutes with a map that does not change whether the
predicate holds (such as a keyed `UPDATE`, which rewrites non-key
columns only). -/
theorem find?_map_pres {α : Type} (l : List α) (p : α → Bool) (g : α → α)
    (hp : ∀ a, p (g a) = p a) : (l.map g).find? p = (l.find? p).map g := by
  induction l with
  | nil => rfl
  | cons x xs ih =>
    simp only [List.map_cons, List.find?_cons, hp x]
    cases hpx : p x with
    | true => simp
    | false => simpa using ih

/-- Helper: SQL `MAX` of a column extended by one value. -/
theorem sqlMaxInt_append_singleton (l : List Int) (a : Int) :
    sqlMaxInt (l ++ [a]) =
      some (match sqlMaxInt l with | none => a | some m => max m a) := by
  cases l with
  | nil => rfl
  | cons x xs => simp [sqlMaxInt, List.foldl_append]

/-- The gap-free revision sequence `[1, ..., n]`. -/
def seq1To (n : Nat) : List Int := (List.range n).map (fun i => (i : Int) + 1)

/-- Helper: the `MAX(revision_number) ... or 0` read on a gap-free
sequence `[1..n]` yields `n` (also for `n = 0`, the empty table). -/
theorem seq1To_max (n : Nat) : pyOrZero (sqlMaxInt (seq1To n)) = (n : Int) := by
  induction n with
  | zero => rfl
  | succ k ih =>
    have hs : seq1To (k + 1) = seq1To k ++ [(k : Int) + 1] := by
      simp [seq1To, List.range_succ]
    rw [hs, sqlMaxInt_append_singleton]
    cases hm : sqlMaxInt (seq1To k) with
    | none =>
      show (k : Int) + 1 = ((k + 1 : Nat) : Int)
      push_cast
      ring
    | some m =>
      rw [hm] at ih
      have hmk : m = (k : Int) := ih
      show max m ((k : Int) + 1) = ((k + 1 : Nat) : Int)
      rw [hmk, max_eq_right (by omega : (k : Int) ≤ (k : Int) + 1)]
      push_cast
      ring

/-- Helper: a key just marked in the Jira dedup table is processed. -/
theorem jira_mark_self (db : List JiraMonitor.ProcessedRow) (k c : String) :
    JiraMonitor.is_processed (JiraMonitor.mark_processed db k c) k c = true := by
  unfold JiraMonitor.mark_processed
  by_cases h : JiraMonitor.is_processed db k c
  · rw [if_pos h]
    exact h
  · rw [if_neg h]
    simp [JiraMonitor.is_processed, List.any_append]

/-- Helper: marking one key never unmarks another. -/
theorem jira_mark_mono (db : List JiraMonitor.ProcessedRow) (k c k' c' : String)
    (h : JiraMonitor.is_processed db k c = true) :
    JiraMonitor.is_processed (JiraMonitor.mark_processed db k' c') k c = true := by
  unfold JiraMonitor.mark_processed
  split
  · exact h
  · simp only [JiraMonitor.is_processed, List.any_append] at h ⊢
    simp [h]

/-- Helper: a predicate preserved by each step is preserved by `foldl`. -/
theorem foldl_pres {α β : Type} (step : β → α → β) (P : β → Prop)
    (h : ∀ b a, P b → P (step b a)) : ∀ (l : List α) (b : β), P b → P (l.foldl step b) := by
  intro l
  induction l with
  | nil => intro b hb; exact hb
  | cons x xs ih => intro b hb; exact ih _ (h b x hb)

/-- Helper: every event `_filter_new_mentions` emits is already marked in
the processed table it returns — the marking happens inside the fetch
filter itself. -/
theorem filter_new_mentions_marks (email : Option (List Char))
    (processed : List JiraMonitor.ProcessedRow) (issues : List JiraIssue) :
    ∀ e ∈ (filter_new_mentions email processed issues).1,
      JiraMonitor.is_processed (filter_new_mentions email processed issues).2
        e.issue_key e.comment_id = true := by
  have hstep : ∀ (key : String) (acc : List JiraEvent × List JiraMonitor.ProcessedRow)
      (c : JiraComment),
      (∀ e ∈ acc.1, JiraMonitor.is_processed acc.2 e.issue_key e.comment_id = true) →
      ∀ e ∈ (filterMentionStep email key acc c).1,
        JiraMonitor.is_processed (filterMentionStep email key acc c).2
          e.issue_key e.comment_id = true := by
    intro key acc c hacc e he
    unfold filterMentionStep at he ⊢
    by_cases hc : (is_service_account_mentioned email c.text
        && !JiraMonitor.is_processed acc.2 key c.id) = true
    · rw [if_pos hc] at he ⊢
      rcases List.mem_append.mp he with h1 | h2
      · exact jira_mark_mono _ _ _ _ _ (hacc e h1)
      · simp only [List.mem_singleton] at h2
        subst h2
        exact jira_mark_self acc.2 key c.id
    · rw [if_neg hc] at he ⊢
      exact hacc e he
  have houter : ∀ (issue : JiraIssue) (acc : List JiraEvent × List JiraMonitor.ProcessedRow),
      (∀ e ∈ acc.1, JiraMonitor.is_processed acc.2 e.issue_key e.comment_id = true) →
      ∀ e ∈ (issue.comments.foldl (filterMentionStep email issue.key) acc).1,
        JiraMonitor.is_processed
          (issue.comments.foldl (filterMentionStep email issue.key) acc).2
          e.issue_key e.comment_id = true := by
    intro issue acc hacc
    exact foldl_pres (filterMentionStep email issue.key)
      (fun b => ∀ e ∈ b.1, JiraMonitor.is_processed b.2 e.issue_key e.comment_id = true)
      (fun b a hb => hstep issue.key b a hb) issue.comments acc hacc
  unfold filter_new_mentions
  exact foldl_pres _
    (fun b => ∀ e ∈ b.1, JiraMonitor.is_processed b.2 e.issue_key e.comment_id = true)
    (fun b a hb => houter a b hb) issues ([], processed) (by intro e he; cases he)

/-- C4: `should_alert_violation` returns true exactly when no record
exists for the violation id (first sighting), or the incoming escalation
level strictly exceeds the recorded `current_escalation_level`
(regardless of elapsed time), or at least 24 hours (86400 seconds) have
elapsed since `last_alerted_at`; in every other case it returns false. -/
theorem should_alert_violation_spec (db : List SLARow) (now : Int) (v : Violation) :
    should_alert_violation db now v = true ↔
      lookupSLA db (violationId v) = none ∨
      ∃ r, lookupSLA db (violationId v) = some r ∧
        (violationEscalation v > r.current_escalation_level ∨
         now - r.last_alerted_at ≥ 86400) := by
  cases h : lookupSLA db (violationId v) with
  | none => simp [should_alert_violation, h]
  | some r =>
    simp only [should_alert_violation, h, Option.some.injEq, reduceCtorEq, false_or]
    constructor
    · intro ht
      refine ⟨r, rfl, ?_⟩
      by_cases h1 : violationEscalation v > r.current_escalation_level
      · exact Or.inl h1
      · by_cases h2 : now - r.last_alerted_at ≥ 86400
        · exact Or.inr h2
        · rw [if_neg h1, if_neg h2] at ht
          cases ht
    · rintro ⟨r', rfl, hcond⟩
      rcases hcond with h1 | h2
      · rw [if_pos h1]
      · by_cases h1 : violationEscalation v > r.current_escalation_level
        · rw [if_pos h1]
        · rw [if_neg h1, if_pos h2]

/-- C5 counterexample: on an existing record with
`current_escalation_level = 3` and an incoming violation at level 1,
`record_alert` stores level 1 — the incoming level — not
`max(existing, incoming) = 3` as the claim states. -/
theorem record_alert_escalation_counterexample :
    (lookupSLA
      (record_alert
        [{ violation_id := "PR-114_pr_stale", item_id := "PR-114",
           violation_type := "pr_stale", last_alerted_at := 0, alert_count := 1,
           current_escalation_level := 3, slack_thread_ts := none }]
        1000 { item_id := "PR-114", vtype := "pr_stale", escalation_level := some 1 } none)
      "PR-114_pr_stale").map (fun r => r.current_escalation_level) = some 1
    ∧ (1 : Int) ≠ max 3 1 := by
  constructor
  · decide
  · decide

/-- C5 amended: on an existing record, `record_alert` increments
`alert_count`, sets `last_alerted_at` to now, sets
`current_escalation_level` to the INCOMING level (overwriting — it can
decrease; not the max of existing and incoming), and sets the thread
reference only when a new one is supplied, otherwise preserving the
stored one. -/
theorem record_alert_updates_existing (db : List SLARow) (now : Int) (v : Violation)
    (ts : Option String) (r : SLARow)
    (hr : lookupSLA db (violationId v) = some r) :
    lookupSLA (record_alert db now v ts) (violationId v) =
      some { r with
             last_alerted_at := now
             alert_count := r.alert_count + 1
             current_escalation_level := violationEscalation v
             slack_thread_ts := ts.orElse fun _ => r.slack_thread_ts } := by
  have hr0 : db.find? (fun row => row.violation_id == violationId v) = some r := hr
  have hkey : (r.violation_id == violationId v) = true :=
    List.find?_some (p := fun (row : SLARow) => row.violation_id == violationId v) hr0
  simp only [record_alert, hr]
  unfold lookupSLA
  rw [find?_map_pres _ _ _ (by
    intro a
    by_cases ha : (a.violation_id == violationId v) = true
    · rw [if_pos ha]
    · rw [if_neg ha]), hr0, Option.map_some', if_pos hkey]

/-- C5 amended witness: concrete update of an existing record. -/
theorem record_alert_updates_existing_witness :
    lookupSLA
      (record_alert
        [{ violation_id := "PR-114_pr_stale", item_id := "PR-114",
           violation_type := "pr_stale", last_alerted_at := 0, alert_count := 2,
           current_escalation_level := 3, slack_thread_ts := some "111.222" }]
        1000 { item_id := "PR-114", vtype := "pr_stale", escalation_level := some 1 } none)
      "PR-114_pr_stale" =
      some { violation_id := "PR-114_pr_stale", item_id := "PR-114",
             violation_type := "pr_stale", last_alerted_at := 1000, alert_count := 3,
             current_escalation_level := 1, slack_thread_ts := some "111.222" } :=
  record_alert_updates_existing
    [{ violation_id := "PR-114_pr_stale", item_id := "PR-114",
       violation_type := "pr_stale", last_alerted_at := 0, alert_count := 2,
       current_escalation_level := 3, slack_thread_ts := some "111.222" }]
    1000 { item_id := "PR-114", vtype := "pr_stale", escalation_level := some 1 } none
    { violation_id := "PR-114_pr_stale", item_id := "PR-114",
      violation_type := "pr_stale", last_alerted_at := 0, alert_count := 2,
      current_escalation_level := 3, slack_thread_ts := some "111.222" }
    (by decide)

/-- C6: for both ledgers, marking the same key twice equals marking it
once (same table state — `INSERT OR IGNORE` / `INSERT OR REPLACE` are
total functions, never an error), `is_processed` is true after the first
call, and the number of rows holding the key after a mark is at most one
(`max n 1` for the Jira table, whose model does not assume the primary
key invariant of the input, and exactly 1 for the Slack table). -/
theorem mark_processed_idempotent :
    (∀ (db : List JiraMonitor.ProcessedRow) (k c : String),
      JiraMonitor.mark_processed (JiraMonitor.mark_processed db k c) k c =
        JiraMonitor.mark_processed db k c
      ∧ JiraMonitor.is_processed (JiraMonitor.mark_processed db k c) k c = true
      ∧ ((JiraMonitor.mark_processed db k c).filter
           (fun r => r.issue_key == k && r.comment_id == c)).length =
          max (db.filter (fun r => r.issue_key == k && r.comment_id == c)).length 1)
    ∧ (∀ (db : List SlackMonitor.ProcessedRow) (ch : String) (ts : Int) (resp : String),
      SlackMonitor.mark_processed (SlackMonitor.mark_processed db ch ts resp) ch ts resp =
        SlackMonitor.mark_processed db ch ts resp
      ∧ SlackMonitor.is_processed (SlackMonitor.mark_processed db ch ts resp) ts = true
      ∧ ((SlackMonitor.mark_processed db ch ts resp).filter
           (fun r => r.ts == ts)).length = 1) := by
  constructor
  · intro db k c
    have hself := jira_mark_self db k c
    refine ⟨?_, hself, ?_⟩
    · have houter : JiraMonitor.mark_processed (JiraMonitor.mark_processed db k c) k c =
          if JiraMonitor.is_processed (JiraMonitor.mark_processed db k c) k c = true
          then JiraMonitor.mark_processed db k c
          else JiraMonitor.mark_processed db k c ++ [{ issue_key := k, comment_id := c }] := rfl
      rw [houter, if_pos hself]
    · unfold JiraMonitor.mark_processed
      by_cases h : JiraMonitor.is_processed db k c
      · rw [if_pos h]
        unfold JiraMonitor.is_processed at h
        rw [List.any_eq_true] at h
        obtain ⟨x, hx, hpx⟩ := h
        have hmem : x ∈ db.filter (fun r => r.issue_key == k && r.comment_id == c) :=
          List.mem_filter.mpr ⟨hx, hpx⟩
        have hpos : 0 < (db.filter (fun r => r.issue_key == k && r.comment_id == c)).length :=
          List.length_pos.mpr (List.ne_nil_of_mem hmem)
        omega
      · rw [if_neg h]
        unfold JiraMonitor.is_processed at h
        have hnil : db.filter (fun r => r.issue_key == k && r.comment_id == c) = [] := by
          rw [List.filter_eq_nil_iff]
          intro a ha hpa
          exact h (List.any_eq_true.mpr ⟨a, ha, hpa⟩)
        rw [List.filter_append, hnil]
        simp
  · intro db ch ts resp
    refine ⟨?_, ?_, ?_⟩
    · unfold SlackMonitor.mark_processed
      rw [List.filter_append]
      have h1 : (db.filter (fun r => !(r.ts == ts))).filter (fun r => !(r.ts == ts)) =
          db.filter (fun r => !(r.ts == ts)) := by
        rw [List.filter_filter]
        simp
      have h2 : List.filter (fun r => !(r.ts == ts))
          [({ ts := ts, channel := ch, response := resp.take 1000 } : SlackMonitor.ProcessedRow)] =
          [] := by
        simp
      rw [h1, h2, List.append_nil]
    · unfold SlackMonitor.mark_processed SlackMonitor.is_processed
      rw [List.any_append]
      simp
    · unfold SlackMonitor.mark_processed
      rw [List.filter_append, List.filter_filter]
      simp

/-- C8 counterexample: a successful Slack fetch that emits one mention
event leaves the monitor's persisted state (and hence its derived cursor
`MAX(ts)` over `processed_messages`) completely unchanged — the Slack
connector never advances a cursor to "now" at fetch time, contradicting
the claim for every Connector. -/
theorem slack_cursor_not_advanced_counterexample :
    (SlackMonitor.poll_for_mentions { processed := [] } "C1" "BOT" true
       [{ ts := 100, user := some "U1", bot_id := none,
          text := "<@BOT> hello".toList, thread_ts := none }]).1.length = 1
    ∧ (SlackMonitor.poll_for_mentions { processed := [] } "C1" "BOT" true
       [{ ts := 100, user := some "U1", bot_id := none,
          text := "<@BOT> hello".toList, thread_ts := none }]).2 = { processed := [] }
    ∧ SlackMonitor.get_last_processed_ts
        (SlackMonitor.poll_for_mentions { processed := [] } "C1" "BOT" true
          [{ ts := 100, user := some "U1", bot_id := none,
             text := "<@BOT> hello".toList, thread_ts := none }]).2 "C1" = 0 := by
  refine ⟨by decide, by decide, by decide⟩

/-- C8 amended: the Jira connector does advance its persisted cursor to
"now" after every successful fetch, independent of which items were
emitted; the Slack connector's poll returns its persisted state
untouched for every input — its effective cursor (the maximum marked
timestamp) moves only when the dispatcher later marks items processed. -/
theorem cursor_advance_amended :
    (∀ (email : Option (List Char)) (st : JiraMonitorState) (now : Int)
       (issues : List JiraIssue),
       (JiraMonitor.poll_for_mentions email st now (JiraFetch.ok issues)).2.last_check =
         some now)
    ∧ (∀ (st : SlackMonitorState) (ch bot : String) (ok : Bool)
       (msgs : List SlackMessage),
       (SlackMonitor.poll_for_mentions st ch bot ok msgs).2 = st) := by
  constructor
  · intro email st now issues
    rfl
  · intro st ch bot ok msgs
    by_cases h : ok
    · subst h
      rfl
    · simp only [Bool.not_eq_true] at h
      subst h
      rfl

/-- C9: for every event, `process_with_claude` raises `NameError` while
building its prompt — the interpolated name `channel_name` is bound
nowhere in the function's scope — so the generic path never invokes the
reasoning-service subprocess (empty effect list) and never returns a
response text. -/
theorem process_with_claude_name_error :
    (∀ (run_claude : Unit → String) (ev : SlackEvent),
       SlackMonitor.process_with_claude run_claude ev =
         (PyOutcome.nameError "channel_name", []))
    ∧ processWithClaudeScope.contains "channel_name" = false := by
  constructor
  · intro run_claude ev
    rfl
  · rfl

/-- C1 counterexample: one successful Jira poll over a fresh state emits
a mention event and, in the very same fetch step — before any dispatch,
posting, or other side effect has happened — the comment is already
recorded as processed: `mark_processed` is called at fetch time inside
`_filter_new_mentions`, so a later failed side effect cannot cause a
retry of this item. -/
theorem jira_marks_at_fetch_counterexample :
    (JiraMonitor.poll_for_mentions none { processed := [], last_check := none } 500
       (JiraFetch.ok
         [{ key := "ECD-1"
            comments := [{ id := "100", text := "hey remington, please review".toList }] }])).1.length
      = 1
    ∧ JiraMonitor.is_processed
        (JiraMonitor.poll_for_mentions none { processed := [], last_check := none } 500
          (JiraFetch.ok
            [{ key := "ECD-1"
               comments := [{ id := "100",
                              text := "hey remington, please review".toList }] }])).2.processed
        "ECD-1" "100" = true := by
  refine ⟨by decide, by decide⟩

/-- C1 amended: the mark-after-side-effect ordering holds only on the
Slack generic-fallback dispatch path — there `mark_processed` runs
exactly when `send_response` reported success, and a failed send leaves
the item unmarked for retry. The Jira monitor instead marks every
emitted mention as processed at fetch time, inside
`_filter_new_mentions`, before any side effect is attempted. -/
theorem mark_ordering_amended :
    (∀ (p : List SlackMonitor.ProcessedRow) (ch : String) (ts : Int) (resp : String),
       slack_generic_dispatch p ch ts resp false = p
       ∧ SlackMonitor.is_processed (slack_generic_dispatch p ch ts resp true) ts = true)
    ∧ (∀ (email : Option (List Char)) (st : JiraMonitorState) (now : Int)
       (issues : List JiraIssue) (e : JiraEvent),
       e ∈ (JiraMonitor.poll_for_mentions email st now (JiraFetch.ok issues)).1 →
       JiraMonitor.is_processed
         (JiraMonitor.poll_for_mentions email st now (JiraFetch.ok issues)).2.processed
         e.issue_key e.comment_id = true) := by
  constructor
  · intro p ch ts resp
    refine ⟨rfl, ?_⟩
    unfold slack_generic_dispatch SlackMonitor.mark_processed SlackMonitor.is_processed
    rw [if_pos rfl, List.any_append]
    simp
  · intro email st now issues e he
    exact filter_new_mentions_marks email st.processed issues e he

/-- C1 amended witness: the Slack path marks after a successful send,
and the Jira path has the concrete fetched mention already marked. -/
theorem mark_ordering_amended_witness :
    SlackMonitor.is_processed (slack_generic_dispatch [] "C1" 7 "resp" true) 7 = true
    ∧ JiraMonitor.is_processed
        (JiraMonitor.poll_for_mentions none { processed := [], last_check := none } 500
          (JiraFetch.ok
            [{ key := "ECD-1"
               comments := [{ id := "100", text := "ping remington".toList }] }])).2.processed
        "ECD-1" "100" = true :=
  ⟨(mark_ordering_amended.1 [] "C1" 7 "resp").2,
   mark_ordering_amended.2 none { processed := [], last_check := none } 500
     [{ key := "ECD-1", comments := [{ id := "100", text := "ping remington".toList }] }]
     { issue_key := "ECD-1", comment_id := "100", comment_text := "ping remington".toList }
     (by decide)⟩

/-- C2 counterexample: a request created and then cancelled is not
immune to the approve and request-changes operations.
`update_request_status(..., 'approved')` flips its status from
`cancelled` to `approved` and reports success (no caller error), and
`add_revision` both appends a second revision row and resets the status
to `pending` — nothing is rejected and state does mutate. -/
theorem terminal_state_not_immutable_counterexample :
    (get_request
      (update_request_status
        (update_request_status
          (create_request { requests := [], revisions := [] } "r1" 0
            "slack" "T1" "story" "U1" "User One" "ctx" "draft v1")
          "r1" "cancelled" none 1).1
        "r1" "approved" none 2).1
      "r1").map (fun r => r.status) = some "approved"
    ∧ (update_request_status
        (update_request_status
          (create_request { requests := [], revisions := [] } "r1" 0
            "slack" "T1" "story" "U1" "User One" "ctx" "draft v1")
          "r1" "cancelled" none 1).1
        "r1" "approved" none 2).2 = true
    ∧ (add_revision
        (update_request_status
          (create_request { requests := [], revisions := [] } "r1" 0
            "slack" "T1" "story" "U1" "User One" "ctx" "draft v1")
          "r1" "cancelled" none 1).1
        "r1" "draft v2" (some "feedback") 3).1.revisions.length = 2
    ∧ (get_request
        (add_revision
          (update_request_status
            (create_request { requests := [], revisions := [] } "r1" 0
              "slack" "T1" "story" "U1" "User One" "ctx" "draft v1")
            "r1" "cancelled" none 1).1
          "r1" "draft v2" (some "feedback") 3).1
        "r1").map (fun r => r.status) = some "pending" := by
  refine ⟨by decide, by decide, by decide, by decide⟩

/-- C2 amended: the store enforces no status guard.
`update_request_status(rid, 'approved')` rewrites any request row with
that id — whatever its current status, including `cancelled` — to
`approved` (stamping `approved_at`) and reports success, and
`add_revision` always appends a revision numbered max+1 and resets the
request's status to `pending`. Terminal-state immutability is not
implemented in `PMRequestsDB`; only the dispatcher's habit of parsing
approval responses solely for requests it saw in status `pending`
limits how these operations are reached. -/
theorem status_ops_unguarded :
    (∀ (db : PMRequestsDB) (rid : String) (key : Option String) (now : Int)
       (r : PMRequestRow),
       get_request db rid = some r →
       get_request (update_request_status db rid "approved" key now).1 rid =
         some { r with status := "approved", updated_at := now, approved_at := some now }
       ∧ (update_request_status db rid "approved" key now).2 = true)
    ∧ (∀ (db : PMRequestsDB) (rid draft : String) (f : Option String) (now : Int)
       (r : PMRequestRow),
       get_request db rid = some r →
       get_request (add_revision db rid draft f now).1 rid =
         some { r with draft_content := draft, status := "pending", updated_at := now }
       ∧ requestRevisionNumbers (add_revision db rid draft f now).1 rid =
           requestRevisionNumbers db rid ++
             [pyOrZero (sqlMaxInt (requestRevisionNumbers db rid)) + 1]) := by
  constructor
  · intro db rid key now r hr
    have hr0 : db.requests.find? (fun x => x.request_id == rid) = some r := hr
    have hkey : (r.request_id == rid) = true :=
      List.find?_some (p := fun (x : PMRequestRow) => x.request_id == rid) hr0
    constructor
    · show ((db.requests.map (fun x =>
          if (x.request_id == rid) = true then
            { x with status := "approved", updated_at := now, approved_at := some now }
          else x)).find? (fun x => x.request_id == rid)) = _
      rw [find?_map_pres _ _ _ (by
        intro a
        by_cases ha : (a.request_id == rid) = true
        · rw [if_pos ha]
        · rw [if_neg ha]), hr0, Option.map_some', if_pos hkey]
    · show db.requests.any (fun x => x.request_id == rid) = true
      exact List.any_eq_true.mpr ⟨r, List.mem_of_find?_eq_some hr0, hkey⟩
  · intro db rid draft f now r hr
    have hr0 : db.requests.find? (fun x => x.request_id == rid) = some r := hr
    have hkey : (r.request_id == rid) = true :=
      List.find?_some (p := fun (x : PMRequestRow) => x.request_id == rid) hr0
    constructor
    · show ((db.requests.map (fun x =>
          if (x.request_id == rid) = true then
            { x with draft_content := draft, status := "pending", updated_at := now }
          else x)).find? (fun x => x.request_id == rid)) = _
      rw [find?_map_pres _ _ _ (by
        intro a
        by_cases ha : (a.request_id == rid) = true
        · rw [if_pos ha]
        · rw [if_neg ha]), hr0, Option.map_some', if_pos hkey]
    · simp [add_revision, requestRevisionNumbers, List.filter_append]

/-- C2 amended witness: a concrete cancelled request is approved by
`update_request_status` and revised by `add_revision`. -/
theorem status_ops_unguarded_witness :
    get_request
      (update_request_status
        { requests := [{ request_id := "r1", source := "slack", source_id := "T",
                         request_type := "bug", user_id := "U", user_name := "N",
                         original_context := "c", draft_content := "d",
                         status := "cancelled", jira_ticket_key := none,
                         created_at := 0, updated_at := 0, approved_at := none,
                         created_ticket_at := none }], revisions := [] }
        "r1" "approved" none 5).1 "r1" =
      some { request_id := "r1", source := "slack", source_id := "T",
             request_type := "bug", user_id := "U", user_name := "N",
             original_context := "c", draft_content := "d",
             status := "approved", jira_ticket_key := none,
             created_at := 0, updated_at := 5, approved_at := some 5,
             created_ticket_at := none } :=
  (status_ops_unguarded.1
    { requests := [{ request_id := "r1", source := "slack", source_id := "T",
                     request_type := "bug", user_id := "U", user_name := "N",
                     original_context := "c", draft_content := "d",
                     status := "cancelled", jira_ticket_key := none,
                     created_at := 0, updated_at := 0, approved_at := none,
                     created_ticket_at := none }], revisions := [] }
    "r1" none 5
    { request_id := "r1", source := "slack", source_id := "T",
      request_type := "bug", user_id := "U", user_name := "N",
      original_context := "c", draft_content := "d",
      status := "cancelled", jira_ticket_key := none,
      created_at := 0, updated_at := 0, approved_at := none,
      created_ticket_at := none }
    (by decide)).1

/-- C3: revision numbers stay the gap-free sequence `[1..n]`:
`create_request` seeds a request that had no revisions with exactly
`[1]`; `add_revision` on a request whose revisions are `[1..n]` yields
`[1..n+1]` and returns `n+1` (it reads `MAX(revision_number)` and adds
one); in particular on existing revisions `{1, 2}` it returns 3 — never
a reused or skipped number. -/
theorem revision_numbers_gap_free :
    (∀ (db : PMRequestsDB) (rid : String) (now : Int)
       (s si rt ui un oc dc : String),
       requestRevisionNumbers db rid = [] →
       requestRevisionNumbers (create_request db rid now s si rt ui un oc dc) rid = seq1To 1)
    ∧ (∀ (db : PMRequestsDB) (rid draft : String) (f : Option String) (now : Int) (n : Nat),
       requestRevisionNumbers db rid = seq1To n →
       requestRevisionNumbers (add_revision db rid draft f now).1 rid = seq1To (n + 1)
       ∧ (add_revision db rid draft f now).2 = (n : Int) + 1)
    ∧ (∀ (db : PMRequestsDB) (rid draft : String) (f : Option String) (now : Int),
       requestRevisionNumbers db rid = [1, 2] →
       (add_revision db rid draft f now).2 = 3) := by
  refine ⟨?_, ?_, ?_⟩
  · intro db rid now s si rt ui un oc dc hempty
    have happ : requestRevisionNumbers (create_request db rid now s si rt ui un oc dc) rid =
        requestRevisionNumbers db rid ++ [1] := by
      simp [requestRevisionNumbers, create_request, List.filter_append]
    rw [happ, hempty]
    decide
  · intro db rid draft f now n hseq
    have hmax : pyOrZero (sqlMaxInt (requestRevisionNumbers db rid)) = (n : Int) := by
      rw [hseq, seq1To_max]
    have hsnd : (add_revision db rid draft f now).2 = (n : Int) + 1 := by
      show pyOrZero (sqlMaxInt (requestRevisionNumbers db rid)) + 1 = (n : Int) + 1
      rw [hmax]
    refine ⟨?_, hsnd⟩
    have happ : requestRevisionNumbers (add_revision db rid draft f now).1 rid =
        requestRevisionNumbers db rid ++
          [pyOrZero (sqlMaxInt (requestRevisionNumbers db rid)) + 1] := by
      simp [add_revision, requestRevisionNumbers, List.filter_append]
    rw [happ, hmax, hseq]
    simp [seq1To, List.range_succ]
  · intro db rid draft f now h12
    have hmax : pyOrZero (sqlMaxInt (requestRevisionNumbers db rid)) = (2 : Int) := by
      rw [h12]
      decide
    show pyOrZero (sqlMaxInt (requestRevisionNumbers db rid)) + 1 = 3
    rw [hmax]
    decide

/-- C3 witness: a fresh request gets revision `[1]`, and a request with
revisions `{1, 2}` gets revision number 3. -/
theorem revision_numbers_gap_free_witness :
    requestRevisionNumbers
      (create_request { requests := [], revisions := [] } "r1" 0
        "slack" "T1" "story" "U" "N" "ctx" "d0") "r1" = seq1To 1
    ∧ (add_revision
        { requests := [],
          revisions := [{ request_id := "r1", revision_number := 1, draft_content := "d0",
                          feedback := none, created_at := 0 },
                        { request_id := "r1", revision_number := 2, draft_content := "d1",
                          feedback := some "fb1", created_at := 1 }] }
        "r1" "d2" (some "fb2") 2).2 = 3 :=
  ⟨revision_numbers_gap_free.1 { requests := [], revisions := [] } "r1" 0
    "slack" "T1" "story" "U" "N" "ctx" "d0" (by decide),
   revision_numbers_gap_free.2.2
    { requests := [],
      revisions := [{ request_id := "r1", revision_number := 1, draft_content := "d0",
                      feedback := none, created_at := 0 },
                    { request_id := "r1", revision_number := 2, draft_content := "d1",
                      feedback := some "fb1", created_at := 1 }] }
    "r1" "d2" (some "fb2") 2 (by decide)⟩

/-- Helper: when the text begins with the first keyword of the
alternation and a nonempty remainder follows, the leftmost search fires
at position 0 and captures the stripped remainder. -/
theorem searchKw_cons_head (kw : List Char) (rest : List (List Char)) (r : List Char)
    (hne : r ≠ []) (hkw : kw ≠ []) :
    searchKw (kw :: rest) (kw ++ r) = some (pyStrip r) := by
  cases kw with
  | nil => exact absurd rfl hkw
  | cons c kt =>
    have hpre : List.isPrefixOf (c :: kt) ((c :: kt) ++ r) = true := by
      rw [List.isPrefixOf_iff_prefix]
      exact List.prefix_append _ _
    have hrlen : 0 < r.length := by
      cases r with
      | nil => exact absurd rfl hne
      | cons a as => simp
    have hlen : (c :: kt).length < ((c :: kt) ++ r).length := by
      rw [List.length_append]
      omega
    have hmatch : kwMatchAt (c :: kt) ((c :: kt) ++ r) = true := by
      unfold kwMatchAt
      rw [hpre]
      simp [hlen, hrlen]
    show searchKw ((c :: kt) :: rest) (c :: (kt ++ r)) = some (pyStrip r)
    simp only [searchKw]
    rw [List.find?_cons_of_pos (p := fun kw => kwMatchAt kw (c :: (kt ++ r))) rest hmatch]
    show some (pyStrip (List.drop (c :: kt).length ((c :: kt) ++ r))) = some (pyStrip r)
    rw [List.drop_left]

/-- C7 counterexample: on input `"changes: Fix The Typo"` the parser
returns feedback `"fix the typo"`, the lowercased remainder — not the
verbatim, case-preserved remainder `"Fix The Typo"` the claim requires:
the whole comment is lowercased before the change patterns run. -/
theorem parse_feedback_case_counterexample :
    (parse_approval_response ("changes: Fix The Typo".toList)).feedback =
      some ("fix the typo".toList)
    ∧ ("fix the typo".toList : List Char) ≠ pyStrip (" Fix The Typo".toList) := by
  refine ⟨by decide, by decide⟩

/-- C7 amended: the four example classifications hold as claimed, and
for every text whose lowercased, stripped form begins with the
first-priority keyword `changes:` followed by a nonempty remainder and
matching no approval pattern, the returned feedback is that remainder of
the LOWERCASED text, trimmed — case is not preserved. (For lower-priority
keywords the extraction point is the first match of the
highest-priority pattern anywhere in the lowered text, not necessarily
the leading keyword.) -/
theorem parse_approval_classification :
    (parse_approval_response ("approved".toList)).response_type = some ResponseType.approved
    ∧ parse_approval_response ("changes: fix the typo in the title".toList) =
        { response_type := some ResponseType.changes,
          feedback := some ("fix the typo in the title".toList), confidence_tenths := 9 }
    ∧ (parse_approval_response ("cancel".toList)).response_type = some ResponseType.cancel
    ∧ (parse_approval_response ("looks fine to me, ship it".toList)).response_type = none
    ∧ (∀ (t r : List Char),
        approvalMatch (pyStrip (pyLower t)) = false →
        pyStrip (pyLower t) = "changes:".toList ++ r →
        r ≠ [] →
        (parse_approval_response t).response_type = some ResponseType.changes
        ∧ (parse_approval_response t).feedback = some (pyStrip r)) := by
  refine ⟨by decide, by decide, by decide, by decide, ?_⟩
  intro t r hA hpre hne
  have hcf : changeFeedback (pyStrip (pyLower t)) = some (pyStrip r) := by
    unfold changeFeedback
    rw [hpre, searchKw_cons_head _ _ _ hne (by decide)]
    rfl
  constructor
  · simp [parse_approval_response, hA, hcf]
  · simp [parse_approval_response, hA, hcf]

/-- C7 amended witness: a concrete leading `changes:` input. -/
theorem parse_approval_classification_witness :
    (parse_approval_response ("changes: do it".toList)).response_type =
      some ResponseType.changes
    ∧ (parse_approval_response ("changes: do it".toList)).feedback =
        some (pyStrip (" do it".toList)) :=
  parse_approval_classification.2.2.2.2 ("changes: do it".toList) (" do it".toList)
    (by decide) (by decide) (by decide)

/-- C10: the approval patterns are evaluated before the change and
cancel patterns, so every text whose lowered, stripped form contains a
whole-word `approve`/`approved`, a word-bounded `looks good` or
`go ahead`, or a checkmark glyph anywhere is classified `approved` with
no feedback extracted — even `"changes: this looks good"` (leading
change keyword) and `"not approved"` (negation). -/
theorem approval_precedence :
    (∀ (t : List Char),
       (containsWord (pyStrip (pyLower t)) ("approve".toList) = true
        ∨ containsWord (pyStrip (pyLower t)) ("approved".toList) = true
        ∨ containsWord (pyStrip (pyLower t)) ("looks good".toList) = true
        ∨ containsWord (pyStrip (pyLower t)) ("go ahead".toList) = true
        ∨ containsSub (pyStrip (pyLower t)) ("✅".toList) = true) →
       (parse_approval_response t).response_type = some ResponseType.approved
       ∧ (parse_approval_response t).feedback = none)
    ∧ parse_approval_response ("changes: this looks good".toList) =
        { response_type := some ResponseType.approved, feedback := none,
          confidence_tenths := 9 }
    ∧ parse_approval_response ("not approved".toList) =
        { response_type := some ResponseType.approved, feedback := none,
          confidence_tenths := 9 } := by
  refine ⟨?_, by decide, by decide⟩
  intro t hdisj
  have hA : approvalMatch (pyStrip (pyLower t)) = true := by
    unfold approvalMatch
    rcases hdisj with h | h | h | h | h <;> simp only [h] <;> simp
  constructor
  · simp [parse_approval_response, hA]
  · simp [parse_approval_response, hA]

/-- C10 witness: the leading-change-keyword example, via the universal
part of the theorem. -/
theorem approval_precedence_witness :
    (parse_approval_response ("changes: this looks good".toList)).response_type =
      some ResponseType.approved
    ∧ (parse_approval_response ("changes: this looks good".toList)).feedback = none :=
  approval_precedence.1 ("changes: this looks good".toList)
    (Or.inr (Or.inr (Or.inl (by decide))))
example : (parse_approval_response ("changes: fix the typo in the title".toList)).feedback = some ("fix the typo in the title".toList) := by decide
example : (parse_approval_response ("cancel".toList)).response_type = some ResponseType.cancel := by decide
example : (parse_approval_response ("looks fine to me, ship it".toList)).response_type = none := by decide
example : (parse_approval_response ("changes: this looks good".toList)).response_type = some ResponseType.approved := by decide
example : (parse_approval_response ("not approved".toList)).response_type = some ResponseType.approved := by decide
example : (parse_approval_response ("changes: Fix The Typo".toList)).feedback = some ("fix the typo".toList) := by decide
